import Mathlib

/-!
Shallow embedding of the Polyglot Interop client (meta/interop/client.py).

The verified core is the duplex (WebSocket) correlation engine of class
PolyglotInteropClient: the handler table `message_handlers` mapping a call
identifier to the `set_result` method of the future created by
`send_websocket`, the inbound dispatcher `_handle_websocket_message`, the
receive loop `_websocket_listener` with its reconnect branch
`connect_websocket`, and the lifecycle operations `init` and `close`.

Modelling conventions:
- JSON values are the inductive `JValue`; a Python dict that came from JSON
  is an association list `JObj` with unique keys. `dict.get(k)` is `alookup`,
  `dict[k]` is `alookup` plus a `KeyError` when absent, `dict.pop(k, None)`
  and `dict.pop(k)` after a membership check are `aerase`, and
  `dict[k] = v` is `ainsert`.
- The futures created by `send_websocket` are a list indexed by creation
  order; `none` is a pending future, `some v` a future on which
  `set_result v` has been called. A stored handler is the index of its
  future.
- Python exceptions are the inductive `PyErr`; a raised exception travels in
  the second component of a `ClientState × Option PyErr` pair so that side
  effects performed before the raise stay visible, exactly as mutations on
  `self` persist when an exception propagates.
- Outcomes of awaited library operations (HTTP status codes, the WebSocket
  handshake, channel teardown) are explicit input parameters.
-/

namespace Interop

/-- A JSON value as produced by `json.loads`. -/
inductive JValue where
  | jnull
  | jbool (b : Bool)
  | jnum (n : Int)
  | jstr (s : String)
  | jarr (elems : List JValue)
  | jobj (fields : List (String × JValue))

/-- A JSON object / Python dict, as an association list with unique keys. -/
abbrev JObj := List (String × JValue)

/-- A raised Python exception, identified by its class and message. -/
inductive PyErr where
  | keyError (k : String)
  | attributeError (a : String)
  | exc (msg : String)
  deriving DecidableEq

/-- Python `d.get(k)`: the first value stored under key `k`, if any. -/
def alookup {α : Type} : List (String × α) → String → Option α
  | [], _ => none
  | p :: rest, k => if p.1 = k then some p.2 else alookup rest k

/-- Python `d.pop(k)` / `del d[k]`: drop the entry with key `k`.
With unique keys this agrees with removing the single entry. -/
def aerase {α : Type} : List (String × α) → String → List (String × α)
  | [], _ => []
  | p :: rest, k => if p.1 = k then aerase rest k else p :: aerase rest k

/-- Python `d[k] = v`: replace the value under `k`, or append a new entry. -/
def ainsert {α : Type} : List (String × α) → String → α → List (String × α)
  | [], k, v => [(k, v)]
  | p :: rest, k, v => if p.1 = k then (k, v) :: rest else p :: ainsert rest k v

/-- The mutable attributes of a `PolyglotInteropClient`.
`websocket` and `session` record whether `self.websocket` and `self.session`
are not `None`; `message_handlers` is the correlation table mapping a call
identifier to (the `set_result` of) its future; `futures` collects the
futures created by `send_websocket`, in creation order. -/
structure ClientState where
  websocket : Bool
  session : Bool
  message_handlers : List (String × Nat)
  futures : List (Option JValue)

/-- Python `msg_type == t` where `msg_type = message.get("type")`:
true exactly when the stored value is the string `t`. -/
def tagIs (message : JObj) (t : String) : Bool :=
  match alookup message "type" with
  | some (.jstr s) => s == t
  | _ => false

/-- `_handle_websocket_message`, the inbound frame dispatcher.
An if/elif chain on `message.get("type")`: a `modules` frame prints
`message["data"]`; a `response` frame whose id is a registered key pops the
handler and calls it on `message["result"]`; an `error` frame prints
`message["error"]`; everything else is printed and dropped. A missing
mandatory key raises `KeyError` after the mutations already performed. -/
def handle_websocket_message (st : ClientState) (message : JObj) :
    ClientState × Option PyErr :=
  if tagIs message "modules" then
    match alookup message "data" with
    | some _ => (st, none)
    | none => (st, some (.keyError "data"))
  else if tagIs message "response" then
    match alookup message "id" with
    | some (.jstr mid) =>
        (match alookup st.message_handlers mid with
         | some fidx =>
             (match alookup message "result" with
              | some r =>
                  ({ st with
                      message_handlers := aerase st.message_handlers mid,
                      futures := st.futures.set fidx (some r) }, none)
              | none =>
                  ({ st with
                      message_handlers := aerase st.message_handlers mid },
                   some (.keyError "result")))
         | none => (st, none))
    | _ => (st, none)
  else if tagIs message "error" then
    match alookup message "error" with
    | some _ => (st, none)
    | none => (st, some (.keyError "error"))
  else (st, none)

/-- One inbound text of the receive loop: either `json.loads` fails
(`JSONDecodeError`) or it yields a JSON object. -/
inductive RawFrame where
  | malformed
  | parsed (m : JObj)

/-- The body of the `async for` in `_websocket_listener` for one message:
a parse failure is printed and the loop continues; a parsed frame is passed
to `_handle_websocket_message`. -/
def listen_step (st : ClientState) (f : RawFrame) : ClientState × Option PyErr :=
  match f with
  | .malformed => (st, none)
  | .parsed m => handle_websocket_message st m

/-- The `async for` of `_websocket_listener` over a list of inbound texts:
processing stops at the first frame whose handling raises (the exception
escapes the `async for`). -/
def processFrames : ClientState → List RawFrame → ClientState × Option PyErr
  | st, [] => (st, none)
  | st, f :: rest =>
    match listen_step st f with
    | (st1, none) => processFrames st1 rest
    | (st1, some e) => (st1, some e)

/-- `connect_websocket` with the handshake outcome as input: on success the
socket is stored and a listener task is spawned (second component `true`);
on failure the exception is caught and printed, nothing else happens. -/
def connect_websocket (st : ClientState) (handshake : Bool) :
    ClientState × Bool :=
  if handshake then ({ st with websocket := true }, true) else (st, false)

/-- How the message iteration of `_websocket_listener` ends once all frames
are consumed: the iterator finishes normally (normal closure of the
channel), or it raises `ConnectionClosed` (abnormal loss), in which case the
listener sleeps 5 seconds and calls `connect_websocket` once, with the given
handshake outcome. -/
inductive ListenerEnd where
  | cleanClose
  | connLost (handshake : Bool)

/-- `_websocket_listener` end to end: the initial `if not self.websocket`
guard, the frame loop, then the end of the iteration. Result: final state,
seconds slept before a reconnection attempt (if any), and whether a new
listener task was spawned. A frame whose handling raises falls into the
generic `except Exception` branch: printed, loop over, no reconnection. -/
def websocket_listener (st : ClientState) (frames : List RawFrame)
    (theEnd : ListenerEnd) : ClientState × Option Nat × Bool :=
  if st.websocket = false then (st, none, false)
  else
    match processFrames st frames with
    | (st1, some _) => (st1, none, false)
    | (st1, none) =>
      match theEnd with
      | .cleanClose => (st1, none, false)
      | .connLost hs =>
        let c := connect_websocket st1 hs
        (c.1, some 5, c.2)

/-- The frame serialized by `send_websocket`. -/
def ws_call_frame (message_id target method : String) (params : JObj) : JObj :=
  [("type", .jstr "call"), ("id", .jstr message_id), ("target", .jstr target),
   ("method", .jstr method), ("params", .jobj params)]

/-- `send_websocket` up to and including the wire write: the
`WebSocket not connected` guard, the `params = params or {}` defaulting, the
creation of a fresh pending future, the registration of its `set_result`
under `message_id`, and the serialized call frame. The identifier generated
from clock and uuid is an input. -/
def send_websocket_start (st : ClientState) (target method : String)
    (params : Option JObj) (message_id : String) :
    Except PyErr (ClientState × JObj) :=
  if st.websocket = false then .error (.exc "WebSocket not connected")
  else
    .ok ({ st with
            futures := st.futures ++ [none],
            message_handlers :=
              ainsert st.message_handlers message_id st.futures.length },
         ws_call_frame message_id target method (params.getD []))

/-- The `asyncio.TimeoutError` branch of `send_websocket`:
`self.message_handlers.pop(message_id, None)` followed by
`raise Exception("WebSocket call timeout")`. -/
def send_websocket_on_timeout (st : ClientState) (message_id : String) :
    ClientState × PyErr :=
  ({ st with message_handlers := aerase st.message_handlers message_id },
   .exc "WebSocket call timeout")

/-- The body posted by `call` to `/rpc`. -/
def call_request_body (target method : String) (params : Option JObj) : JObj :=
  [("target", .jstr target), ("method", .jstr method),
   ("params", .jobj (params.getD []))]

/-- `call` with the reply (status, body) as input: posts the request body,
raises on a non-200 status, otherwise returns `result["result"]`. -/
def call (target method : String) (params : Option JObj) (status : Nat)
    (body : JObj) : JObj × Except PyErr JValue :=
  (call_request_body target method params,
   if status ≠ 200 then .error (.exc ("RPC call failed: " ++ toString status))
   else
     match alookup body "result" with
     | some v => .ok v
     | none => .error (.keyError "result"))

/-- The body posted by `send` to `/queue`. -/
def send_request_body (target method : String) (params : Option JObj)
    (priority : Int) : JObj :=
  [("target", .jstr target), ("method", .jstr method),
   ("params", .jobj (params.getD [])), ("priority", .jnum priority)]

/-- `init` with the registration status and handshake outcome as inputs:
creates the aiohttp session, registers when `auto_register` is set (a
failure there is printed and re-raised, aborting `init`), then calls
`connect_websocket`, whose failure is caught inside it and never reaches
`init`. -/
def init (st : ClientState) (auto : Bool) (registerStatus : Nat)
    (handshake : Bool) : ClientState × Option PyErr :=
  let st1 := { st with session := true }
  if auto then
    if registerStatus ≠ 200 then
      (st1, some (.exc ("Registration failed: " ++ toString registerStatus)))
    else ((connect_websocket st1 handshake).1, none)
  else ((connect_websocket st1 handshake).1, none)

/-- `unregister` with the DELETE status as input: dereferences
`self.session` (an `AttributeError` when it is `None`), then raises on a
non-200 status. -/
def unregister (st : ClientState) (status : Nat) : Option PyErr :=
  if st.session = false then some (.attributeError "delete")
  else if status ≠ 200 then
    some (.exc ("Unregistration failed: " ++ toString status))
  else none

/-- The three teardown actions attempted by `close`. -/
inductive CloseStep where
  | duplex
  | reply
  | unreg
  deriving DecidableEq

/-- Outcomes of the awaited operations inside `close`: whether
`websocket.close()` and `session.close()` raise, and the HTTP status
`unregister` would get. -/
structure CloseOutcome where
  wsCloseErr : Option PyErr
  sessCloseErr : Option PyErr
  unregStatus : Nat

/-- Final part of `close`: `if self.config.auto_register: await self.unregister()`. -/
def close_unreg (st : ClientState) (auto : Bool) (o : CloseOutcome)
    (steps : List CloseStep) : ClientState × List CloseStep × Option PyErr :=
  if auto then (st, steps ++ [CloseStep.unreg], unregister st o.unregStatus)
  else (st, steps, none)

/-- Middle part of `close`: `if self.session: await self.session.close();
self.session = None`, then the unregister part. An exception from
`session.close()` propagates and nothing further runs. -/
def close_after_ws (st : ClientState) (auto : Bool) (o : CloseOutcome)
    (steps : List CloseStep) : ClientState × List CloseStep × Option PyErr :=
  if st.session then
    match o.sessCloseErr with
    | some e => (st, steps ++ [CloseStep.reply], some e)
    | none => close_unreg { st with session := false } auto o
        (steps ++ [CloseStep.reply])
  else close_unreg st auto o steps

/-- `close` end to end: `if self.websocket: await self.websocket.close();
self.websocket = None`, then the session part, then the unregister part.
Result: final state, the steps attempted in order, and the exception that
escaped `close`, if any. -/
def close (st : ClientState) (auto : Bool) (o : CloseOutcome) :
    ClientState × List CloseStep × Option PyErr :=
  if st.websocket then
    match o.wsCloseErr with
    | some e => (st, [CloseStep.duplex], some e)
    | none => close_after_ws { st with websocket := false } auto o
        [CloseStep.duplex]
  else close_after_ws st auto o []

/-- A well-formed response frame carrying `r` for call identifier `cid`. -/
def respFrame (cid : String) (r : JValue) : JObj :=
  [("type", .jstr "response"), ("id", .jstr cid), ("result", r)]

/-- The receive loop handling one well-formed response frame per element of
`rs`, in order: the state after `_handle_websocket_message` has seen them
all. -/
def deliverAll : ClientState → List (String × JValue) → ClientState
  | st, [] => st
  | st, p :: rest =>
    deliverAll (handle_websocket_message st (respFrame p.1 p.2)).1 rest

/-- Consistency of the correlation table: identifiers are distinct, distinct
entries hold distinct futures, and every stored future index exists. -/
abbrev WInv (st : ClientState) : Prop :=
  (st.message_handlers.map Prod.fst).Nodup ∧
  (st.message_handlers.map Prod.snd).Nodup ∧
  ∀ p ∈ st.message_handlers, p.2 < st.futures.length

/-! ### Association list lemmas -/

theorem mem_of_alookup {α : Type} {l : List (String × α)} {k : String} {v : α}
    (h : alookup l k = some v) : (k, v) ∈ l := by
  induction l with
  | nil => simp [alookup] at h
  | cons p rest ih =>
    rw [alookup] at h
    split at h
    · rename_i hk
      cases h
      have hp : p = (k, p.2) := by
        cases p
        simp_all
      rw [← hp]
      exact List.mem_cons_self p rest
    · exact List.mem_cons_of_mem _ (ih h)

theorem alookup_eq_none_of_not_mem_keys {α : Type} {l : List (String × α)}
    {k : String} (h : k ∉ l.map Prod.fst) : alookup l k = none := by
  induction l with
  | nil => rfl
  | cons p rest ih =>
    rw [alookup]
    simp only [List.map_cons, List.mem_cons] at h
    push_neg at h
    rw [if_neg (fun hpk => h.1 hpk.symm)]
    exact ih h.2

theorem not_mem_keys_of_alookup_eq_none {α : Type} {l : List (String × α)}
    {k : String} (h : alookup l k = none) : k ∉ l.map Prod.fst := by
  induction l with
  | nil => simp
  | cons p rest ih =>
    rw [alookup] at h
    split at h
    · cases h
    · rename_i hk
      simp only [List.map_cons, List.mem_cons]
      push_neg
      exact ⟨fun he => hk he.symm, ih h⟩

theorem alookup_aerase_self {α : Type} (l : List (String × α)) (k : String) :
    alookup (aerase l k) k = none := by
  induction l with
  | nil => rfl
  | cons p rest ih =>
    rw [aerase]
    split
    · exact ih
    · rename_i hk
      rw [alookup, if_neg hk]
      exact ih

theorem alookup_aerase_ne {α : Type} (l : List (String × α)) {j k : String}
    (h : j ≠ k) : alookup (aerase l j) k = alookup l k := by
  induction l with
  | nil => rfl
  | cons p rest ih =>
    rw [aerase]
    split
    · rename_i hp
      rw [alookup, if_neg (by rw [hp]; exact h)]
      exact ih
    · rw [alookup, alookup]
      split
      · rfl
      · exact ih

theorem aerase_sublist {α : Type} (l : List (String × α)) (k : String) :
    List.Sublist (aerase l k) l := by
  induction l with
  | nil => exact List.Sublist.refl []
  | cons p rest ih =>
    rw [aerase]
    split
    · exact List.Sublist.cons p ih
    · exact List.Sublist.cons₂ p ih

theorem mem_aerase {α : Type} {l : List (String × α)} {k : String}
    {p : String × α} (h : p ∈ aerase l k) : p ∈ l ∧ p.1 ≠ k := by
  induction l with
  | nil => cases h
  | cons q rest ih =>
    rw [aerase] at h
    split at h
    · rename_i hq
      exact ⟨List.mem_cons_of_mem _ (ih h).1, (ih h).2⟩
    · rename_i hq
      rcases List.mem_cons.mp h with h1 | h2
      · exact ⟨by rw [h1]; exact List.mem_cons_self q rest, by rw [h1]; exact hq⟩
      · exact ⟨List.mem_cons_of_mem _ (ih h2).1, (ih h2).2⟩

theorem aerase_of_alookup_eq_none {α : Type} {l : List (String × α)}
    {k : String} (h : alookup l k = none) : aerase l k = l := by
  induction l with
  | nil => rfl
  | cons p rest ih =>
    rw [alookup] at h
    rw [aerase]
    split at h
    · cases h
    · rename_i hp
      rw [if_neg hp, ih h]

theorem ainsert_of_alookup_eq_none {α : Type} {l : List (String × α)}
    {k : String} (v : α) (h : alookup l k = none) :
    ainsert l k v = l ++ [(k, v)] := by
  induction l with
  | nil => rfl
  | cons p rest ih =>
    rw [alookup] at h
    rw [ainsert]
    split at h
    · cases h
    · rename_i hp
      rw [if_neg hp, ih h, List.cons_append]

/-- Distinct keys with a duplicate-free value list have distinct values. -/
theorem vals_nodup_inj {α : Type} {l : List (String × α)}
    (hv : (l.map Prod.snd).Nodup) {k1 k2 : String} {v1 v2 : α}
    (h1 : (k1, v1) ∈ l) (h2 : (k2, v2) ∈ l) (hk : k1 ≠ k2) : v1 ≠ v2 := by
  induction l with
  | nil => cases h1
  | cons p rest ih =>
    simp only [List.map_cons, List.nodup_cons] at hv
    rcases List.mem_cons.mp h1 with e1 | m1
    · rcases List.mem_cons.mp h2 with e2 | m2
      · exact absurd (by rw [← e1] at e2; exact congrArg Prod.fst e2.symm) hk
      · intro hveq
        exact hv.1 (by
          rw [show p.2 = v2 from by rw [← e1]; exact hveq]
          exact List.mem_map.mpr ⟨(k2, v2), m2, rfl⟩)
    · rcases List.mem_cons.mp h2 with e2 | m2
      · intro hveq
        exact hv.1 (by
          rw [show p.2 = v1 from by rw [← e2]; exact hveq.symm]
          exact List.mem_map.mpr ⟨(k1, v1), m1, rfl⟩)
      · exact ih hv.2 m1 m2

/-! ### Behaviour of the dispatcher on well-formed response frames -/

/-- `_handle_websocket_message` on a well-formed response frame: resolve and
deregister when the identifier is known, silently drop it otherwise. -/
theorem handle_respFrame (st : ClientState) (c : String) (r : JValue) :
    handle_websocket_message st (respFrame c r) =
      match alookup st.message_handlers c with
      | some i =>
          ({ st with message_handlers := aerase st.message_handlers c,
                     futures := st.futures.set i (some r) }, none)
      | none => (st, none) := by
  cases h : alookup st.message_handlers c <;>
    simp [handle_websocket_message, respFrame, tagIs, alookup, h]

theorem deliverAll_append (st : ClientState) (a b : List (String × JValue)) :
    deliverAll st (a ++ b) = deliverAll (deliverAll st a) b := by
  induction a generalizing st with
  | nil => rfl
  | cons p rest ih =>
    rw [List.cons_append, deliverAll, deliverAll]
    exact ih _

theorem deliverAll_futures_length :
    ∀ (rs : List (String × JValue)) (st : ClientState),
      (deliverAll st rs).futures.length = st.futures.length := by
  intro rs
  induction rs with
  | nil => intro st; rfl
  | cons q rest ih =>
    intro st
    rw [deliverAll, ih, handle_respFrame]
    cases hl : alookup st.message_handlers q.1 <;> simp

/-- A never-registered identifier stays unregistered under any deliveries. -/
theorem deliverAll_lookup_none :
    ∀ (rs : List (String × JValue)) (st : ClientState) (cid : String),
      alookup st.message_handlers cid = none →
      alookup (deliverAll st rs).message_handlers cid = none := by
  intro rs
  induction rs with
  | nil => intro st cid h; exact h
  | cons q rest ih =>
    intro st cid h
    rw [deliverAll]
    apply ih
    rw [handle_respFrame]
    cases hl : alookup st.message_handlers q.1 with
    | none => simpa using h
    | some i =>
      by_cases hp : q.1 = cid
      · subst hp
        rw [hl] at h
        cases h
      · simpa [alookup_aerase_ne _ hp] using h

/-- A registration survives deliveries for other identifiers. -/
theorem deliverAll_lookup_some :
    ∀ (rs : List (String × JValue)) (st : ClientState) (cid : String) (i : Nat),
      (∀ p ∈ rs, p.1 ≠ cid) →
      alookup st.message_handlers cid = some i →
      alookup (deliverAll st rs).message_handlers cid = some i := by
  intro rs
  induction rs with
  | nil => intro st cid i _ h; exact h
  | cons q rest ih =>
    intro st cid i hall h
    rw [deliverAll]
    apply ih _ _ _ (fun p hp => hall p (List.mem_cons_of_mem _ hp))
    have hq : q.1 ≠ cid := hall q (List.mem_cons_self q rest)
    rw [handle_respFrame]
    cases hl : alookup st.message_handlers q.1 with
    | none => simpa using h
    | some j => simpa [alookup_aerase_ne _ hq] using h

/-- A future whose index no registered handler holds is never written. -/
theorem deliverAll_futures_preserve :
    ∀ (rs : List (String × JValue)) (st : ClientState) (i : Nat),
      (∀ p ∈ st.message_handlers, p.2 ≠ i) →
      (deliverAll st rs).futures[i]? = st.futures[i]? := by
  intro rs
  induction rs with
  | nil => intro st i _; rfl
  | cons q rest ih =>
    intro st i hvals
    rw [deliverAll]
    cases hl : alookup st.message_handlers q.1 with
    | none =>
      have hstep : (handle_websocket_message st (respFrame q.1 q.2)).1 = st := by
        rw [handle_respFrame, hl]
      rw [hstep]
      exact ih st i hvals
    | some j =>
      have hji : j ≠ i := hvals (q.1, j) (mem_of_alookup hl)
      have hstep : (handle_websocket_message st (respFrame q.1 q.2)).1 =
          { st with message_handlers := aerase st.message_handlers q.1,
                    futures := st.futures.set j (some q.2) } := by
        rw [handle_respFrame, hl]
      rw [hstep]
      have hv2 : ∀ p ∈ aerase st.message_handlers q.1, p.2 ≠ i :=
        fun p hp => hvals p (mem_aerase hp).1
      rw [ih _ i hv2]
      exact List.getElem?_set_ne hji

/-- One response delivery preserves the table consistency invariant. -/
theorem WInv_step (st : ClientState) (c : String) (r : JValue) (h : WInv st) :
    WInv (handle_websocket_message st (respFrame c r)).1 := by
  rw [handle_respFrame]
  cases hl : alookup st.message_handlers c with
  | none => exact h
  | some i =>
    obtain ⟨hk, hv, hb⟩ := h
    refine ⟨?_, ?_, ?_⟩
    · exact hk.sublist ((aerase_sublist _ _).map Prod.fst)
    · exact hv.sublist ((aerase_sublist _ _).map Prod.snd)
    · intro p hp
      simpa using hb p (mem_aerase hp).1

theorem deliverAll_WInv :
    ∀ (rs : List (String × JValue)) (st : ClientState),
      WInv st → WInv (deliverAll st rs) := by
  intro rs
  induction rs with
  | nil => intro st h; exact h
  | cons q rest ih =>
    intro st h
    rw [deliverAll]
    exact ih _ (WInv_step st q.1 q.2 h)

/-! ### Claim theorems -/

/-- Claim C1: when a duplex call times out, `send_websocket` raises the
timeout error (the `Exception("WebSocket call timeout")` that the spec
taxonomy calls `TimeoutError`), its identifier is removed from
`message_handlers` (no leaked registration), and a response frame arriving
later for that identifier is dropped by `_handle_websocket_message` without
raising and without resolving anything: the state is returned unchanged. -/
theorem timeout_cleanup_and_late_response_dropped (st : ClientState)
    (cid : String) (m : JObj)
    (hty : alookup m "type" = some (.jstr "response"))
    (hid : alookup m "id" = some (.jstr cid)) :
    (send_websocket_on_timeout st cid).2 = .exc "WebSocket call timeout" ∧
    alookup (send_websocket_on_timeout st cid).1.message_handlers cid = none ∧
    handle_websocket_message (send_websocket_on_timeout st cid).1 m =
      ((send_websocket_on_timeout st cid).1, none) := by
  refine ⟨rfl, alookup_aerase_self _ _, ?_⟩
  have htm : tagIs m "modules" = false := by simp [tagIs, hty]
  have htr : tagIs m "response" = true := by simp [tagIs, hty]
  simp [handle_websocket_message, htm, htr, hid, send_websocket_on_timeout,
    alookup_aerase_self]

theorem timeout_cleanup_and_late_response_dropped_witness :
    alookup (respFrame "ws_1" (JValue.jstr "late")) "type" =
      some (JValue.jstr "response") ∧
    alookup (respFrame "ws_1" (JValue.jstr "late")) "id" =
      some (JValue.jstr "ws_1") ∧
    ((send_websocket_on_timeout ⟨true, true, [("ws_1", 0)], [none]⟩ "ws_1").2 =
        .exc "WebSocket call timeout" ∧
      alookup (send_websocket_on_timeout
          ⟨true, true, [("ws_1", 0)], [none]⟩ "ws_1").1.message_handlers
          "ws_1" = none ∧
      handle_websocket_message
          (send_websocket_on_timeout
            ⟨true, true, [("ws_1", 0)], [none]⟩ "ws_1").1
          (respFrame "ws_1" (JValue.jstr "late")) =
        ((send_websocket_on_timeout
            ⟨true, true, [("ws_1", 0)], [none]⟩ "ws_1").1, none)) :=
  ⟨rfl, rfl,
    timeout_cleanup_and_late_response_dropped _ "ws_1" _ rfl rfl⟩

/-- Claim C2: starting from any consistent table in which `cid` is
registered with future `i`, delivering any stream of response frames that
contains exactly one frame for `cid` (carrying `r`), in any arrival order
relative to the other identifiers, resolves the call exactly once with its
own result: future `i` holds `r` at the end, `cid` is no longer registered,
a subsequent expiry for `cid` is a state no-op, the table stays consistent,
and a fresh duplex call then registers exactly one new entry for exactly one
new pending future (the table tracks precisely the in-flight calls). -/
theorem concurrent_calls_resolve_exactly_once (st fin : ClientState)
    (cid : String) (i : Nat) (r : JValue)
    (rs1 rs2 : List (String × JValue))
    (hInv : WInv st)
    (hreg : alookup st.message_handlers cid = some i)
    (h1 : ∀ p ∈ rs1, p.1 ≠ cid)
    (h2 : ∀ p ∈ rs2, p.1 ≠ cid)
    (hfin : fin = deliverAll st (rs1 ++ (cid, r) :: rs2)) :
    fin.futures[i]? = some (some r) ∧
    alookup fin.message_handlers cid = none ∧
    send_websocket_on_timeout fin cid = (fin, .exc "WebSocket call timeout") ∧
    WInv fin ∧
    (∀ (t me : String) (ps : Option JObj) (cid2 : String),
      alookup fin.message_handlers cid2 = none → fin.websocket = true →
      send_websocket_start fin t me ps cid2 =
        .ok ({ fin with
                futures := fin.futures ++ [none],
                message_handlers :=
                  fin.message_handlers ++ [(cid2, fin.futures.length)] },
             ws_call_frame cid2 t me (ps.getD []))) := by
  subst hfin
  rw [deliverAll_append]
  have hInv1 : WInv (deliverAll st rs1) := deliverAll_WInv rs1 st hInv
  have hreg1 : alookup (deliverAll st rs1).message_handlers cid = some i :=
    deliverAll_lookup_some rs1 st cid i h1 hreg
  have hilen : i < (deliverAll st rs1).futures.length :=
    hInv1.2.2 (cid, i) (mem_of_alookup hreg1)
  set st1 := deliverAll st rs1 with hst1
  set st2 : ClientState :=
    { st1 with message_handlers := aerase st1.message_handlers cid,
               futures := st1.futures.set i (some r) } with hst2
  have hunfold : deliverAll st1 ((cid, r) :: rs2) = deliverAll st2 rs2 := by
    rw [deliverAll, handle_respFrame, hreg1]
  rw [hunfold]
  have hInv2 : WInv st2 := by
    have h := WInv_step st1 cid r hInv1
    rw [handle_respFrame, hreg1] at h
    exact h
  have hcid2 : alookup st2.message_handlers cid = none :=
    alookup_aerase_self _ _
  have hv2 : ∀ p ∈ st2.message_handlers, p.2 ≠ i := by
    intro p hp
    have hm := mem_aerase hp
    exact Ne.symm (vals_nodup_inj hInv1.2.1 (mem_of_alookup hreg1) hm.1
      (fun hc => hm.2 hc.symm))
  have hfut : (deliverAll st2 rs2).futures[i]? = some (some r) := by
    rw [deliverAll_futures_preserve rs2 st2 i hv2]
    show (st1.futures.set i (some r))[i]? = some (some r)
    exact List.getElem?_set_self hilen
  have hnone : alookup (deliverAll st2 rs2).message_handlers cid = none :=
    deliverAll_lookup_none rs2 st2 cid hcid2
  refine ⟨hfut, hnone, ?_, deliverAll_WInv rs2 st2 hInv2, ?_⟩
  · simp [send_websocket_on_timeout, aerase_of_alookup_eq_none hnone]
  · intro t me ps cid2 hc2 hws
    simp [send_websocket_start, hws, ainsert_of_alookup_eq_none _ hc2]

theorem concurrent_calls_resolve_exactly_once_witness :
    WInv (⟨true, true, [("a", 0), ("b", 1)], [none, none]⟩ : ClientState) ∧
    alookup (⟨true, true, [("a", 0), ("b", 1)],
        [none, none]⟩ : ClientState).message_handlers "a" = some 0 ∧
    (∀ p ∈ [("b", JValue.jstr "rb")], p.1 ≠ "a") ∧
    (∀ p ∈ ([] : List (String × JValue)), p.1 ≠ "a") ∧
    ((deliverAll ⟨true, true, [("a", 0), ("b", 1)], [none, none]⟩
        ([("b", JValue.jstr "rb")] ++
          ("a", JValue.jstr "ra") :: [])).futures[0]? =
      some (some (JValue.jstr "ra")) ∧
    alookup (deliverAll ⟨true, true, [("a", 0), ("b", 1)], [none, none]⟩
        ([("b", JValue.jstr "rb")] ++
          ("a", JValue.jstr "ra") :: [])).message_handlers "a" = none ∧
    send_websocket_on_timeout
        (deliverAll ⟨true, true, [("a", 0), ("b", 1)], [none, none]⟩
          ([("b", JValue.jstr "rb")] ++ ("a", JValue.jstr "ra") :: [])) "a" =
      (deliverAll ⟨true, true, [("a", 0), ("b", 1)], [none, none]⟩
          ([("b", JValue.jstr "rb")] ++ ("a", JValue.jstr "ra") :: []),
        .exc "WebSocket call timeout") ∧
    WInv (deliverAll ⟨true, true, [("a", 0), ("b", 1)], [none, none]⟩
        ([("b", JValue.jstr "rb")] ++ ("a", JValue.jstr "ra") :: [])) ∧
    (∀ (t me : String) (ps : Option JObj) (cid2 : String),
      alookup (deliverAll ⟨true, true, [("a", 0), ("b", 1)], [none, none]⟩
          ([("b", JValue.jstr "rb")] ++
            ("a", JValue.jstr "ra") :: [])).message_handlers cid2 = none →
      (deliverAll ⟨true, true, [("a", 0), ("b", 1)], [none, none]⟩
          ([("b", JValue.jstr "rb")] ++
            ("a", JValue.jstr "ra") :: [])).websocket = true →
      send_websocket_start
          (deliverAll ⟨true, true, [("a", 0), ("b", 1)], [none, none]⟩
            ([("b", JValue.jstr "rb")] ++ ("a", JValue.jstr "ra") :: []))
          t me ps cid2 =
        .ok ({ (deliverAll ⟨true, true, [("a", 0), ("b", 1)], [none, none]⟩
                ([("b", JValue.jstr "rb")] ++
                  ("a", JValue.jstr "ra") :: [])) with
               futures :=
                 (deliverAll ⟨true, true, [("a", 0), ("b", 1)], [none, none]⟩
                   ([("b", JValue.jstr "rb")] ++
                     ("a", JValue.jstr "ra") :: [])).futures ++ [none],
               message_handlers :=
                 (deliverAll ⟨true, true, [("a", 0), ("b", 1)], [none, none]⟩
                     ([("b", JValue.jstr "rb")] ++
                       ("a", JValue.jstr "ra") :: [])).message_handlers ++
                   [(cid2,
                     (deliverAll
                         ⟨true, true, [("a", 0), ("b", 1)], [none, none]⟩
                         ([("b", JValue.jstr "rb")] ++
                           ("a", JValue.jstr "ra") :: [])).futures.length)] },
             ws_call_frame cid2 t me (ps.getD [])))) :=
  ⟨by decide, rfl, by decide, by decide,
    concurrent_calls_resolve_exactly_once
      ⟨true, true, [("a", 0), ("b", 1)], [none, none]⟩ _ "a" 0
      (JValue.jstr "ra") [("b", JValue.jstr "rb")] []
      (by decide) rfl (by decide) (by decide) rfl⟩

/-- Claim C3 is false on the code: with one duplex call pending, the
`ConnectionClosed` branch of `_websocket_listener` only sleeps and attempts
a reconnect; the registration and its pending future are untouched, no
pending call is failed (the code never completes a future with an error and
has no `ConnectionLostError`), so the call is left hanging. -/
theorem disconnect_leaves_pending_calls_counterexample :
    (websocket_listener ⟨true, true, [("ws_1", 0)], [none]⟩ []
        (.connLost true)).1.message_handlers = [("ws_1", 0)] ∧
    (websocket_listener ⟨true, true, [("ws_1", 0)], [none]⟩ []
        (.connLost true)).1.futures = [none] := ⟨rfl, rfl⟩

/-- Claim C3 amended: on duplex-channel loss the pending calls are not
failed; the correlation table and every future survive the disconnect
branch unchanged (each call can only fail later through its own call
timeout), and the branch sleeps the fixed 5 seconds. -/
theorem disconnect_preserves_pending_calls (st : ClientState) (hs : Bool)
    (h : st.websocket = true) :
    (websocket_listener st [] (.connLost hs)).1.message_handlers =
      st.message_handlers ∧
    (websocket_listener st [] (.connLost hs)).1.futures = st.futures ∧
    (websocket_listener st [] (.connLost hs)).2.1 = some 5 := by
  cases hs <;> simp [websocket_listener, processFrames, connect_websocket, h]

theorem disconnect_preserves_pending_calls_witness :
    ((⟨true, true, [("ws_1", 0)], [none]⟩ : ClientState).websocket = true) ∧
    ((websocket_listener ⟨true, true, [("ws_1", 0)], [none]⟩ []
        (.connLost false)).1.message_handlers =
      (⟨true, true, [("ws_1", 0)], [none]⟩ : ClientState).message_handlers ∧
    (websocket_listener ⟨true, true, [("ws_1", 0)], [none]⟩ []
        (.connLost false)).1.futures =
      (⟨true, true, [("ws_1", 0)], [none]⟩ : ClientState).futures ∧
    (websocket_listener ⟨true, true, [("ws_1", 0)], [none]⟩ []
        (.connLost false)).2.1 = some 5) :=
  ⟨rfl, disconnect_preserves_pending_calls
    ⟨true, true, [("ws_1", 0)], [none]⟩ false rfl⟩

/-- Claim C4 is false on the code: an inbound `error` frame carrying the
identifier of a pending duplex call is only printed; the correlation table
is not consulted, the pending call is not failed, the state is unchanged. -/
theorem error_frame_ignores_pending_call_counterexample :
    handle_websocket_message ⟨true, true, [("ws_1", 0)], [none]⟩
        [("type", JValue.jstr "error"), ("id", JValue.jstr "ws_1"),
         ("error", JValue.jstr "boom")] =
      (⟨true, true, [("ws_1", 0)], [none]⟩, none) := rfl

/-- Claim C4 amended: only `response` frames are dispatched to the
correlation table: a response frame with a registered identifier completes
the waiting call with the frame's result and removes the registration,
while an `error` frame is logged and dropped regardless of its identifier,
leaving any matching pending call pending. -/
theorem dispatch_response_only (st : ClientState) (m : JObj) (cid : String)
    (i : Nat) (r : JValue)
    (hty : alookup m "type" = some (.jstr "response"))
    (hid : alookup m "id" = some (.jstr cid))
    (hreg : alookup st.message_handlers cid = some i)
    (hres : alookup m "result" = some r) :
    handle_websocket_message st m =
      ({ st with message_handlers := aerase st.message_handlers cid,
                 futures := st.futures.set i (some r) }, none) ∧
    (∀ (st2 : ClientState) (m2 : JObj) (e : JValue),
      alookup m2 "type" = some (.jstr "error") →
      alookup m2 "error" = some e →
      handle_websocket_message st2 m2 = (st2, none)) := by
  constructor
  · have htm : tagIs m "modules" = false := by simp [tagIs, hty]
    have htr : tagIs m "response" = true := by simp [tagIs, hty]
    simp [handle_websocket_message, htm, htr, hid, hreg, hres]
  · intro st2 m2 e hty2 herr2
    have htm : tagIs m2 "modules" = false := by simp [tagIs, hty2]
    have htr : tagIs m2 "response" = false := by simp [tagIs, hty2]
    have hte : tagIs m2 "error" = true := by simp [tagIs, hty2]
    simp [handle_websocket_message, htm, htr, hte, herr2]

theorem dispatch_response_only_witness :
    alookup (respFrame "ws_1" (JValue.jstr "ok")) "type" =
      some (JValue.jstr "response") ∧
    alookup (respFrame "ws_1" (JValue.jstr "ok")) "id" =
      some (JValue.jstr "ws_1") ∧
    alookup (⟨true, true, [("ws_1", 0)],
      [none]⟩ : ClientState).message_handlers "ws_1" = some 0 ∧
    alookup (respFrame "ws_1" (JValue.jstr "ok")) "result" =
      some (JValue.jstr "ok") ∧
    (handle_websocket_message ⟨true, true, [("ws_1", 0)], [none]⟩
        (respFrame "ws_1" (JValue.jstr "ok")) =
      ({ (⟨true, true, [("ws_1", 0)], [none]⟩ : ClientState) with
          message_handlers := aerase [("ws_1", 0)] "ws_1",
          futures := [none].set 0 (some (JValue.jstr "ok")) }, none) ∧
    (∀ (st2 : ClientState) (m2 : JObj) (e : JValue),
      alookup m2 "type" = some (JValue.jstr "error") →
      alookup m2 "error" = some e →
      handle_websocket_message st2 m2 = (st2, none))) :=
  ⟨rfl, rfl, rfl, rfl,
    dispatch_response_only ⟨true, true, [("ws_1", 0)], [none]⟩
      (respFrame "ws_1" (JValue.jstr "ok")) "ws_1" 0 (JValue.jstr "ok")
      rfl rfl rfl rfl⟩

/-- Claim C5 is false on the code: after a channel loss the listener makes
exactly one reconnection attempt; when that single handshake fails nothing
is retried afterwards (no listener task is spawned, second component
`false`), so reconnection is not retried indefinitely until success. -/
theorem reconnect_single_attempt_counterexample :
    websocket_listener ⟨true, true, [], []⟩ [] (.connLost false) =
      (⟨true, true, [], []⟩, some 5, false) := rfl

/-- Claim C5 amended: after an abnormal duplex-channel loss the listener
sleeps a fixed 5 seconds and calls `connect_websocket` exactly once: on
handshake success the channel is re-established and a new listener task
starts; on handshake failure the exception is swallowed inside
`connect_websocket` and no further attempt is ever made. A normal end of
the message iterator (as after a clean closure) terminates the listener
with no delay and no reconnection attempt at all. -/
theorem reconnect_attempts_once_with_fixed_delay (st : ClientState)
    (h : st.websocket = true) :
    websocket_listener st [] (.connLost true) =
      ({ st with websocket := true }, some 5, true) ∧
    websocket_listener st [] (.connLost false) = (st, some 5, false) ∧
    websocket_listener st [] .cleanClose = (st, none, false) := by
  refine ⟨?_, ?_, ?_⟩ <;>
    simp [websocket_listener, processFrames, connect_websocket, h]

theorem reconnect_attempts_once_with_fixed_delay_witness :
    ((⟨true, true, [], []⟩ : ClientState).websocket = true) ∧
    (websocket_listener ⟨true, true, [], []⟩ [] (.connLost true) =
      ({ (⟨true, true, [], []⟩ : ClientState) with websocket := true },
        some 5, true) ∧
    websocket_listener ⟨true, true, [], []⟩ [] (.connLost false) =
      (⟨true, true, [], []⟩, some 5, false) ∧
    websocket_listener ⟨true, true, [], []⟩ [] .cleanClose =
      (⟨true, true, [], []⟩, none, false)) :=
  ⟨rfl, reconnect_attempts_once_with_fixed_delay ⟨true, true, [], []⟩ rfl⟩

/-- Claim C6 is false on the code: `close()` with a duplex call still
pending tears both channels down without touching `message_handlers` or the
pending future; the call is not resolved with any error (there is no
`SessionClosed` in the code) and its registration outlives the session. -/
theorem close_leaves_pending_calls_counterexample :
    (close ⟨true, true, [("ws_1", 0)], [none]⟩ false
        ⟨none, none, 200⟩).1.message_handlers = [("ws_1", 0)] ∧
    (close ⟨true, true, [("ws_1", 0)], [none]⟩ false
        ⟨none, none, 200⟩).1.futures = [none] := ⟨rfl, rfl⟩

/-- Claim C6 amended: `close()` never resolves outstanding duplex calls:
whatever the channel states, the auto-register flag and the outcomes of the
teardown operations, the correlation table and every future are exactly as
before the call; a pending call can only fail later through its own call
timeout. -/
theorem close_does_not_resolve_pending_calls (st : ClientState) (auto : Bool)
    (o : CloseOutcome) :
    (close st auto o).1.message_handlers = st.message_handlers ∧
    (close st auto o).1.futures = st.futures := by
  rcases o with ⟨we, se, us⟩
  cases hws : st.websocket <;> cases hsess : st.session <;> cases auto <;>
    cases we <;> cases se <;>
      simp [close, close_after_ws, close_unreg, hws, hsess]

/-- Claim C9 is false on the code: `close()` has no per-step error
handling; when closing the duplex channel raises, `close` propagates that
exception at once — the request/reply channel is not closed and unregister
is not attempted, so a failure in one step does prevent the subsequent
steps from running. -/
theorem close_step_failure_aborts_rest_counterexample :
    close ⟨true, true, [], []⟩ true ⟨some (.exc "boom"), none, 200⟩ =
      (⟨true, true, [], []⟩, [CloseStep.duplex], some (.exc "boom")) ∧
    CloseStep.reply ∉ (close ⟨true, true, [], []⟩ true
        ⟨some (.exc "boom"), none, 200⟩).2.1 ∧
    CloseStep.unreg ∉ (close ⟨true, true, [], []⟩ true
        ⟨some (.exc "boom"), none, 200⟩).2.1 :=
  ⟨rfl, by decide, by decide⟩

/-- Claim C9 amended: `close()` attempts its steps in the order duplex
channel, request/reply channel, unregister (the last only when
auto-register is enabled), but the steps are not best-effort: the first
step that raises propagates its exception and the remaining steps do not
run. Moreover, when both channels exist and close cleanly, the unregister
step itself always fails with `AttributeError`, because `close` sets the
session to `None` before `unregister` dereferences it. -/
theorem close_step_order_and_failure_propagation (st : ClientState)
    (auto : Bool) (o : CloseOutcome) :
    (o.wsCloseErr = none → o.sessCloseErr = none →
      (close st auto o).2.1 =
        (if st.websocket then [CloseStep.duplex] else []) ++
        (if st.session then [CloseStep.reply] else []) ++
        (if auto then [CloseStep.unreg] else [])) ∧
    (∀ e, st.websocket = true → o.wsCloseErr = some e →
      close st auto o = (st, [CloseStep.duplex], some e)) ∧
    (∀ e, st.websocket = false → st.session = true → o.sessCloseErr = some e →
      close st auto o = (st, [CloseStep.reply], some e)) ∧
    (auto = true → st.websocket = true → st.session = true →
      o.wsCloseErr = none → o.sessCloseErr = none →
      (close st auto o).2.2 = some (.attributeError "delete")) := by
  refine ⟨?_, ?_, ?_, ?_⟩
  · intro h1 h2
    cases hws : st.websocket <;> cases hsess : st.session <;> cases auto <;>
      simp [close, close_after_ws, close_unreg, hws, hsess, h1, h2]
  · intro e hws hsome
    simp [close, hws, hsome]
  · intro e hws hsess hsome
    simp [close, close_after_ws, hws, hsess, hsome]
  · intro ha hws hsess h1 h2
    simp [close, close_after_ws, close_unreg, unregister, hws, hsess,
      h1, h2, ha]

theorem close_step_order_and_failure_propagation_witness :
    ((close ⟨true, true, [], []⟩ true ⟨none, none, 200⟩).2.1 =
      (if (⟨true, true, [], []⟩ : ClientState).websocket
        then [CloseStep.duplex] else []) ++
      (if (⟨true, true, [], []⟩ : ClientState).session
        then [CloseStep.reply] else []) ++
      (if true then [CloseStep.unreg] else [])) ∧
    (close ⟨true, true, [], []⟩ true ⟨some (.exc "x"), none, 200⟩ =
      (⟨true, true, [], []⟩, [CloseStep.duplex], some (.exc "x"))) ∧
    (close ⟨false, true, [], []⟩ true ⟨none, some (.exc "y"), 200⟩ =
      (⟨false, true, [], []⟩, [CloseStep.reply], some (.exc "y"))) ∧
    ((close ⟨true, true, [], []⟩ true ⟨none, none, 200⟩).2.2 =
      some (.attributeError "delete")) :=
  ⟨(close_step_order_and_failure_propagation ⟨true, true, [], []⟩ true
      ⟨none, none, 200⟩).1 rfl rfl,
   (close_step_order_and_failure_propagation ⟨true, true, [], []⟩ true
      ⟨some (.exc "x"), none, 200⟩).2.1 (.exc "x") rfl rfl,
   (close_step_order_and_failure_propagation ⟨false, true, [], []⟩ true
      ⟨none, some (.exc "y"), 200⟩).2.2.1 (.exc "y") rfl rfl rfl,
   (close_step_order_and_failure_propagation ⟨true, true, [], []⟩ true
      ⟨none, none, 200⟩).2.2.2 rfl rfl rfl rfl rfl⟩

/-- Claim C8 is false on the code: when the WebSocket handshake fails,
`connect_websocket` catches and prints the exception, so `init` completes
without error (here with auto-register succeeding with status 200); the
client simply has no duplex channel afterwards. -/
theorem init_swallows_handshake_failure_counterexample :
    init ⟨false, false, [], []⟩ true 200 false =
      (⟨false, true, [], []⟩, none) := rfl

/-- Claim C8 amended: `init` never fails because of the duplex handshake —
with a failing handshake the websocket attribute is left as it was and
`init` raises only when auto-registration fails; request/reply usability is
indeed per-call: `call` reports a non-success reply as an error of that
call. -/
theorem init_error_only_from_registration (st : ClientState) (auto : Bool)
    (rstatus : Nat) :
    ((init st auto rstatus false).1.websocket = st.websocket) ∧
    (auto = false → (init st auto rstatus false).2 = none) ∧
    (rstatus = 200 → (init st auto rstatus false).2 = none) ∧
    (∀ (t me : String) (p : Option JObj) (status : Nat) (body : JObj),
      status ≠ 200 →
      (call t me p status body).2 =
        .error (.exc ("RPC call failed: " ++ toString status))) := by
  refine ⟨?_, ?_, ?_, ?_⟩
  · cases auto <;> by_cases hr : rstatus = 200 <;>
      simp [init, connect_websocket, hr]
  · intro ha
    subst ha
    simp [init, connect_websocket]
  · intro hr
    subst hr
    cases auto <;> simp [init, connect_websocket]
  · intro t me p status body hstatus
    simp [call, hstatus]

theorem init_error_only_from_registration_witness :
    ((init ⟨false, false, [], []⟩ false 500 false).2 = none) ∧
    ((init ⟨false, false, [], []⟩ true 200 false).2 = none) ∧
    ((call "t" "m" none 500 []).2 =
      .error (.exc ("RPC call failed: " ++ toString 500))) :=
  ⟨(init_error_only_from_registration ⟨false, false, [], []⟩ false 500).2.1
      rfl,
   (init_error_only_from_registration ⟨false, false, [], []⟩ true 200).2.2.1
      rfl,
   (init_error_only_from_registration ⟨false, false, [], []⟩ true 200).2.2.2
      "t" "m" none 500 [] (by decide)⟩

/-- Claim C7 is false on the code: a single parseable inbound frame can
terminate the receive loop — an `error`-tagged frame without an `error`
field raises `KeyError` inside `_handle_websocket_message`, which escapes
the `async for`; the following well-formed response frame is never
processed and the pending call it would have resolved stays pending. -/
theorem single_frame_kills_listener_counterexample :
    processFrames ⟨true, true, [("ws_1", 0)], [none]⟩
        [RawFrame.parsed [("type", JValue.jstr "error")],
         RawFrame.parsed (respFrame "ws_1" (JValue.jstr "ok"))] =
      (⟨true, true, [("ws_1", 0)], [none]⟩, some (PyErr.keyError "error")) ∧
    websocket_listener ⟨true, true, [("ws_1", 0)], [none]⟩
        [RawFrame.parsed [("type", JValue.jstr "error")],
         RawFrame.parsed (respFrame "ws_1" (JValue.jstr "ok"))]
        .cleanClose =
      (⟨true, true, [("ws_1", 0)], [none]⟩, none, false) := ⟨rfl, rfl⟩

/-- Claim C7 amended: unparseable frames, frames with an unknown or absent
tag, and response frames with an unregistered identifier are logged and
dropped and the loop continues; but a parseable frame lacking a mandatory
field — here an `error` frame without its `error` payload — raises
`KeyError`, which terminates the receive loop, leaving any following frames
unprocessed. -/
theorem listener_survives_unknown_frames_but_not_missing_fields
    (st : ClientState) (m : JObj) :
    (listen_step st RawFrame.malformed = (st, none)) ∧
    (∀ s, alookup m "type" = some (.jstr s) →
      s ≠ "modules" → s ≠ "response" → s ≠ "error" →
      handle_websocket_message st m = (st, none)) ∧
    (alookup m "type" = none → handle_websocket_message st m = (st, none)) ∧
    (∀ cid, alookup m "type" = some (.jstr "response") →
      alookup m "id" = some (.jstr cid) →
      alookup st.message_handlers cid = none →
      handle_websocket_message st m = (st, none)) ∧
    (alookup m "type" = some (.jstr "error") → alookup m "error" = none →
      ∀ rest, processFrames st (RawFrame.parsed m :: rest) =
        (st, some (.keyError "error"))) := by
  refine ⟨rfl, ?_, ?_, ?_, ?_⟩
  · intro s hty h1 h2 h3
    have e1 : (s == "modules") = false := by
      cases hq : s == "modules"
      · rfl
      · exact absurd (eq_of_beq hq) h1
    have e2 : (s == "response") = false := by
      cases hq : s == "response"
      · rfl
      · exact absurd (eq_of_beq hq) h2
    have e3 : (s == "error") = false := by
      cases hq : s == "error"
      · rfl
      · exact absurd (eq_of_beq hq) h3
    simp [handle_websocket_message, tagIs, hty, e1, e2, e3]
  · intro hty
    simp [handle_websocket_message, tagIs, hty]
  · intro cid hty hid hreg
    have htm : tagIs m "modules" = false := by simp [tagIs, hty]
    have htr : tagIs m "response" = true := by simp [tagIs, hty]
    simp [handle_websocket_message, htm, htr, hid, hreg]
  · intro hty herr rest
    have e1 : tagIs m "modules" = false := by simp [tagIs, hty]
    have e2 : tagIs m "response" = false := by simp [tagIs, hty]
    have e3 : tagIs m "error" = true := by simp [tagIs, hty]
    have hh : handle_websocket_message st m =
        (st, some (.keyError "error")) := by
      simp [handle_websocket_message, e1, e2, e3, herr]
    simp [processFrames, listen_step, hh]

theorem listener_survives_unknown_frames_witness :
    (listen_step ⟨true, true, [("ws_1", 0)], [none]⟩ RawFrame.malformed =
      (⟨true, true, [("ws_1", 0)], [none]⟩, none)) ∧
    (handle_websocket_message ⟨true, true, [("ws_1", 0)], [none]⟩
        [("type", JValue.jstr "weird")] =
      (⟨true, true, [("ws_1", 0)], [none]⟩, none)) ∧
    (handle_websocket_message ⟨true, true, [("ws_1", 0)], [none]⟩ [] =
      (⟨true, true, [("ws_1", 0)], [none]⟩, none)) ∧
    (handle_websocket_message ⟨true, true, [("ws_1", 0)], [none]⟩
        (respFrame "nope" (JValue.jstr "r")) =
      (⟨true, true, [("ws_1", 0)], [none]⟩, none)) ∧
    (processFrames ⟨true, true, [("ws_1", 0)], [none]⟩
        [RawFrame.parsed [("type", JValue.jstr "error")]] =
      (⟨true, true, [("ws_1", 0)], [none]⟩, some (.keyError "error"))) :=
  ⟨(listener_survives_unknown_frames_but_not_missing_fields
      ⟨true, true, [("ws_1", 0)], [none]⟩ []).1,
   (listener_survives_unknown_frames_but_not_missing_fields
      ⟨true, true, [("ws_1", 0)], [none]⟩
      [("type", JValue.jstr "weird")]).2.1 "weird" rfl
      (by decide) (by decide) (by decide),
   (listener_survives_unknown_frames_but_not_missing_fields
      ⟨true, true, [("ws_1", 0)], [none]⟩ []).2.2.1 rfl,
   (listener_survives_unknown_frames_but_not_missing_fields
      ⟨true, true, [("ws_1", 0)], [none]⟩
      (respFrame "nope" (JValue.jstr "r"))).2.2.2.1 "nope" rfl rfl rfl,
   (listener_survives_unknown_frames_but_not_missing_fields
      ⟨true, true, [("ws_1", 0)], [none]⟩
      [("type", JValue.jstr "error")]).2.2.2.2 rfl rfl []⟩

/-- Claim C10: for `call`, `send` and `send_websocket`, passing no params
(`params=None`, the default for an omitted argument) produces exactly the
request body or call frame produced by passing the empty dictionary. -/
theorem params_none_equals_empty (t me : String) :
    call_request_body t me none = call_request_body t me (some []) ∧
    (∀ pr : Int, send_request_body t me none pr =
      send_request_body t me (some []) pr) ∧
    (∀ (st : ClientState) (cid : String),
      send_websocket_start st t me none cid =
        send_websocket_start st t me (some []) cid) ∧
    (∀ (status : Nat) (body : JObj),
      call t me none status body = call t me (some []) status body) :=
  ⟨rfl, fun _ => rfl, fun _ _ => rfl, fun _ _ => rfl⟩

end Interop
